import Mathlib

/-!
Verification of the caligo `System` module (`src/caligo/modules/system.py`)
and the `silent` context manager (`src/caligo/util/silent.py`) against its
natural-language specification.

The Python code is shallowly embedded: every definition below is translated
from the source, with Python strings modelled as Lean `String`
(character-level operations go through `String.data`), Python `None` as
`Option.none`, MongoDB documents as association lists keyed by field-name
strings, and external side effects (database deletion, message fetch/edit,
process re-exec) reified as explicit action values.
-/

namespace Caligo

/-! ## Execution sandbox: traceback frames (`cmd_eval`, lines 183-201)

`cmd_eval` catches an exception raised by the evaluated snippet, extracts
its traceback with `traceback.extract_tb`, scans for the first frame whose
filename is the synthetic marker `"<string>"` or ends in `"ast.py"`,
re-raises when no such frame exists, and otherwise keeps the suffix of the
traceback starting at that frame and hands it to the external formatter
`util.error.format_exception`. -/

/-- One traceback frame, as produced by `traceback.extract_tb`:
only the filename and line number matter to the filtering logic. -/
structure Frame where
  filename : String
  lineno : Nat
deriving DecidableEq, Repr

/-- Python `str.endswith(suffix)`: the suffix's characters are a suffix of
the string's characters. -/
def pyEndsWith (s suffix : String) : Bool :=
  suffix.data.isSuffixOf s.data

/-- The snippet-frame test of lines 188-190:
`frame.filename == "<string>" or frame.filename.endswith("ast.py")`. -/
def isSnipFrame (f : Frame) : Bool :=
  f.filename == "<string>" || pyEndsWith f.filename ("ast.py")

/-- Index of the first snippet frame in the traceback (lines 185-192).
The Python code uses the sentinel `-1`; we model it as `Option Nat`. -/
def firstSnipIdx : List Frame → Option Nat
  | [] => none
  | f :: rest =>
    if isSnipFrame f then some 0
    else (firstSnipIdx rest).map (fun i => i + 1)

/-- Outcome of the `except Exception` handler of `_eval` (lines 183-201):
either the exception is re-raised unchanged, or a user-facing report is
produced whose trace part is rendered from the retained frames by the
external formatter. The exception itself is abstracted to a `String`. -/
inductive EvalOutcome where
  | reraised (e : String)
  | formatted (header : String) (keptFrames : List Frame)
deriving DecidableEq, Repr

/-- Header returned on line 201 together with the formatted trace. -/
def snipErrHeader : String := "⚠️ Error executing snippet\n\n"

/-- The `except Exception` handler of `_eval` (lines 183-201): find the
first snippet frame; re-raise when there is none; otherwise keep the
traceback suffix `tb[first_snip_idx:]` and format it. -/
def evalExceptHandler (e : String) (tb : List Frame) : EvalOutcome :=
  match firstSnipIdx tb with
  | none => EvalOutcome.reraised e
  | some i => EvalOutcome.formatted snipErrHeader (tb.drop i)

/-! ## Execution sandbox: output buffer handling (`cmd_eval`, lines 207-217)

After `_eval` returns, the result is printed into the buffer when
`not out_buf.getvalue() or result is not None` (line 208), and exactly one
trailing newline is removed from the buffer before the report is built
(lines 216-217). A snippet result of Python `None` is modelled as `none`;
`print(result)` appends `str(result)` and a newline. -/

/-- `str(result)` as printed by line 209: Python `None` prints as `"None"`. -/
def resultStr : Option String → String
  | none => "None"
  | some s => s

/-- Line 208-209: `if not out_buf.getvalue() or result is not None:
print(result, file=out_buf)`. Returns the buffer contents afterwards. -/
def writeResult (buf : String) (result : Option String) : String :=
  if buf = "" ∨ result ≠ none then buf ++ resultStr result ++ "\n" else buf

/-- Lines 216-217: `if out.endswith("\n"): out = out[:-1]` — at most one
trailing newline is dropped, at the character level. -/
def stripOneNewline (s : String) : String :=
  if s.data.getLast? == some '\n' then String.mk s.data.dropLast else s

/-- The report body shown in the `Out:` section: the buffer after the
conditional result write of line 208, with one trailing newline stripped. -/
def finalBody (buf : String) (result : Option String) : String :=
  stripOneNewline (writeResult buf result)

/-! ## Restart persistence (`cmd_restart`, `on_start`, `on_stopped`)

The restart record is a MongoDB sub-document written by `cmd_restart`
(lines 246-260) with the four keys `status_chat_id`, `status_message_id`,
`time` and `reason`, appended with `$addToSet` to the `restart` array of
the document keyed by the bot uid (upsert). `on_start` (lines 267-291)
reads that document back. Documents are modelled as association lists so
that the field names read and written are part of the embedding. -/

/-- A MongoDB field value: the records here hold integers and strings. -/
inductive Val where
  | i : Int → Val
  | s : String → Val
deriving DecidableEq, Repr

/-- A record sub-document: ordered field-name/value pairs. -/
abbrev RestartRec := List (String × Val)

/-- Python `dict.get(key)`: the value under the first matching key,
`None` when absent. -/
def dictGet (d : RestartRec) (k : String) : Option Val :=
  (d.find? (fun p => p.1 == k)).map Prod.snd

/-- The record written on lines 250-257. -/
def mkRestartRec (chatId msgId time : Int) (reason : String) : RestartRec :=
  [("status_chat_id", Val.i chatId), ("status_message_id", Val.i msgId),
   ("time", Val.i time), ("reason", Val.s reason)]

/-- The document stored under `{_id: bot.uid}`: its `restart` field, which
may be absent (`none`) or hold a list of records. -/
structure SysDoc where
  restart : Option (List RestartRec)
deriving DecidableEq, Repr

/-- MongoDB `$addToSet`: append the record unless it is already present. -/
def addToSet (l : List RestartRec) (r : RestartRec) : List RestartRec :=
  if r ∈ l then l else l ++ [r]

/-- The `update_one .. $addToSet .. upsert=True` of lines 247-260 applied to
the current database state (the document under the bot uid, or `none`). -/
def updateAddRestart (db : Option SysDoc) (r : RestartRec) : Option SysDoc :=
  match db with
  | none => some ⟨some [r]⟩
  | some d =>
    match d.restart with
    | none => some ⟨some [r]⟩
    | some l => some ⟨some (addToSet l r)⟩

/-- Python `restart_time or util.time.usec()` on line 254: `or` takes the
right operand when the left is falsy (`None` or `0`). -/
def chooseTime (restart_time : Option Int) (now : Int) : Int :=
  match restart_time with
  | some t => if t = 0 then now else t
  | none => now

/-- State left by `cmd_restart` (lines 236-265): the new database state and
the two flags `restart_pending` and `bot.stop_manual`, both set to `True`. -/
structure RestartCmdState where
  db : Option SysDoc
  restart_pending : Bool
  stop_manual : Bool
deriving DecidableEq, Repr

/-- `cmd_restart` (lines 236-265): persist the record built from the
acknowledgement message location, the supplied-or-current timestamp and the
reason, then flag the pending restart and request a stop. -/
def cmd_restart (db : Option SysDoc) (chatId msgId : Int)
    (restart_time : Option Int) (now : Int) (reason : String) :
    RestartCmdState :=
  ⟨updateAddRestart db
      (mkRestartRec chatId msgId (chooseTime restart_time now) reason),
   true, true⟩

/-- External side effects performed by `on_start`, in order: the
`delete_one` of line 280, the `get_messages` fetch of line 290, and the
respond of line 291 carrying the `updated` qualifier and the raw duration
in microseconds (rendering by `util.time.format_duration_us` is external).
The full reply text is the qualifier spliced into
`Bot ...restarted in ...` as on line 291. -/
inductive Action where
  | deleteDoc
  | getMessages (chatId msgId : Val)
  | respondStatus (updated : String) (durationUs : Int)
deriving DecidableEq, Repr

/-- A Python exception escaping `on_start`: subscripting `None` raises
`TypeError`; `[0]` on an empty list raises `IndexError`. -/
inductive PyError where
  | typeError
  | indexError
deriving DecidableEq, Repr

/-- Result of one run of `on_start`: database state afterwards, the external
actions performed in order, and the exception that escaped, if any. -/
structure StartResult where
  db : Option SysDoc
  actions : List Action
  error : Option PyError
deriving DecidableEq, Repr

/-- `on_start` (lines 267-291): read the document under the bot uid; if
present, take `data.get("restart")[0]` (which raises when the field is
absent or the list empty), read the four fields — note line 276 reads the
key `restart_reason` — delete the document, bail out when the chat or
message id is missing, and otherwise compute the duration from the `time`
field and fetch-and-edit the status message. -/
def on_start (db : Option SysDoc) (now : Int) : StartResult :=
  match db with
  | none => ⟨none, [], none⟩
  | some data =>
    match data.restart with
    | none => ⟨some data, [], some PyError.typeError⟩
    | some [] => ⟨some data, [], some PyError.indexError⟩
    | some (restart :: _rest) =>
      let rs_time := dictGet restart ("time")
      let rs_chat_id := dictGet restart ("status_chat_id")
      let rs_message_id := dictGet restart ("status_message_id")
      let rs_reason := dictGet restart ("restart_reason")
      match rs_chat_id, rs_message_id with
      | some c, some m =>
        let updated := if rs_reason = some (Val.s ("update"))
          then "updated and " else ""
        match rs_time with
        | some (Val.i t) =>
          ⟨none, [Action.deleteDoc, Action.getMessages c m,
                  Action.respondStatus updated (now - t)], none⟩
        | _ => ⟨none, [Action.deleteDoc], some PyError.typeError⟩
      | _, _ => ⟨none, [Action.deleteDoc], none⟩

/-- The `os.execv` call issued at shutdown: target path and argument
vector. -/
structure ExecCall where
  path : String
  argv : List String
deriving DecidableEq, Repr

/-- `on_stopped` (lines 293-298): when `restart_pending` is set, replace the
process image via `os.execv(sys.executable, (sys.executable, "-m",
"caligo"))`; otherwise do nothing. The original process argv is a parameter
to make explicit that the code never consults it. -/
def on_stopped (restart_pending : Bool) (executable : String)
    (_origArgv : List String) : Option ExecCall :=
  if restart_pending then
    some ⟨executable, [executable, "-m", "caligo"]⟩
  else none

/-! ## Self-update flow (`cmd_update`, lines 300-365) -/

/-- One entry of the git diff: only the changed path matters here. -/
structure Change where
  a_path : String
deriving DecidableEq, Repr

/-- Environment observed by one `cmd_update` run: availability of git and
of the repository, the requested remote name (`ctx.input`, empty when not
given), whether `repo.remote(name)` resolves, the tracking remote, the
active branch name, the pre-pull timestamp, the post-pull diff, the
virtualenv path if detected, and the output and exit code of the `pip
install` run. -/
structure UpdateEnv where
  have_git : Bool
  repo_found : Bool
  remote_name : String
  explicit_remote_ok : Bool
  tracking_remote : Option String
  active_branch : String
  update_time : Int
  diff : List Change
  venv_path : Option String
  pip_stdout : String
  pip_ret : Int
deriving DecidableEq, Repr

/-- Outcome of `cmd_update`: the returned reply text (`none` models Python
`return None`) and the `cmd_restart` delegation with its `restart_time` and
`reason` arguments, when one is made. -/
structure UpdateResult where
  reply : Option String
  restartCall : Option (Int × String)
deriving DecidableEq, Repr

/-- Line 307. -/
def gitRequiredMsg : String :=
  "__The__ `git` __command is required for self-updating.__"

/-- Line 312. -/
def repoNotFoundMsg : String :=
  "__Unable to locate Git repository data.__"

/-- Line 319. -/
def remoteNotFoundMsg (name : String) : String :=
  "__Remote__ `" ++ name ++ "` __not found.__"

/-- Line 324. -/
def noTrackingMsg (branch : String) : String :=
  "__Current branch__ `" ++ branch ++ "` __is not tracking a remote.__"

/-- Line 337. -/
def noUpdatesMsg : String := "No updates found."

/-- Lines 351-355. -/
def pipErrorMsg (stdout : String) : String :=
  "⚠️ Error updating dependencies:\n\n```" ++ stdout ++
  "```\n\nFix the issue manually and then restart the bot."

/-- Lines 357-361. -/
def manualUpdateMsg : String :=
  "Successfully pulled updates.\n\n**Update dependencies manually** " ++
  "to avoid errors, then restart the bot for the update to take effect." ++
  "\n\nDependency updates are automatic if you're running the bot in a " ++
  "virtualenv."

/-- `cmd_update` (lines 300-365): guard on git and the repository, resolve
the remote (explicit name or tracking remote), pull, return early on an
empty diff, handle a `poetry.lock` change (automatic reinstall only inside
a virtualenv, manual instruction otherwise), and finally delegate to
`cmd_restart` with the pre-pull timestamp and reason `update`. -/
def cmd_update (env : UpdateEnv) : UpdateResult :=
  if env.have_git = false then ⟨some gitRequiredMsg, none⟩
  else if env.repo_found = false then ⟨some repoNotFoundMsg, none⟩
  else if env.remote_name ≠ "" ∧ env.explicit_remote_ok = false then
    ⟨some (remoteNotFoundMsg env.remote_name), none⟩
  else if env.remote_name = "" ∧ env.tracking_remote = none then
    ⟨some (noTrackingMsg env.active_branch), none⟩
  else if env.diff = [] then ⟨some noUpdatesMsg, none⟩
  else if env.diff.any (fun c => c.a_path == "poetry.lock") then
    match env.venv_path with
    | some _ =>
      if env.pip_ret ≠ 0 then ⟨some (pipErrorMsg env.pip_stdout), none⟩
      else ⟨none, some (env.update_time, "update")⟩
    | none => ⟨some manualUpdateMsg, none⟩
  else ⟨none, some (env.update_time, "update")⟩

/-- The remote-resolution steps of lines 314-324 succeed: an explicitly
named remote exists, or — when no name was given — the current branch
tracks a remote. -/
def remoteResolves (env : UpdateEnv) : Prop :=
  (env.remote_name ≠ "" → env.explicit_remote_ok = true) ∧
  (env.remote_name = "" → env.tracking_remote ≠ none)

/-! ## The `silent` context manager (`src/caligo/util/silent.py`)

`silent` opens `os.devnull`, saves `sys.stdout`, redirects it to the
devnull handle, runs its body, and — in a `finally` protected further by
the `with` block — restores the saved stdout and closes the handle, whether
or not the body raised. Interpreter state is the current `sys.stdout`
handle and the set of open handles; the body is an arbitrary state
transformer that reports whether it raised. -/

/-- Interpreter state seen by `silent`: the object currently bound to
`sys.stdout` and the open file handles, both as abstract handle ids. -/
structure SilentState where
  sys_stdout : Nat
  open_handles : List Nat
deriving DecidableEq, Repr

/-- `silent` (lines 6-14) around a `body`, with `h` the fresh handle the
`open(os.devnull, "w")` call returns: open the handle, save `sys.stdout`,
redirect it to `h`, run the body (which may itself mutate the state and may
raise), then restore the saved stdout in the `finally` block and close `h`
when the `with` block exits; an exception from the body still unwinds
through both. Returns the final state and whether an exception escaped. -/
def silent (body : SilentState → SilentState × Bool) (s0 : SilentState)
    (h : Nat) : SilentState × Bool :=
  let s1 : SilentState := ⟨s0.sys_stdout, h :: s0.open_handles⟩
  let old_stdout := s1.sys_stdout
  let s2 : SilentState := ⟨h, s1.open_handles⟩
  let br := body s2
  let s4 : SilentState := ⟨old_stdout, br.1.open_handles⟩
  let s5 : SilentState := ⟨s4.sys_stdout, s4.open_handles.erase h⟩
  (s5, br.2)

end Caligo

namespace Caligo

/-! ### Helper lemmas -/

theorem string_data_mk (l : List Char) : (String.mk l).data = l := rfl

theorem string_append_data (s t : String) : (s ++ t).data = s.data ++ t.data := by
  cases s; cases t; rfl

theorem stripOneNewline_append_newline (s : String) :
    stripOneNewline (s ++ "\n") = s := by
  unfold stripOneNewline
  rw [string_append_data]
  have hdata : "\n".data = ['\n'] := rfl
  rw [hdata, List.getLast?_concat, List.dropLast_concat]
  simp only [beq_self_eq_true, if_true]

theorem firstSnipIdx_eq_none (tb : List Frame)
    (h : ∀ f ∈ tb, isSnipFrame f = false) : firstSnipIdx tb = none := by
  induction tb with
  | nil => rfl
  | cons f rest ih =>
    unfold firstSnipIdx
    rw [h f (List.mem_cons_self f rest)]
    simp only [Bool.false_eq_true, if_false]
    rw [ih fun g hg => h g (List.mem_cons_of_mem f hg)]
    rfl

theorem firstSnipIdx_spec (tb : List Frame) (i : Nat)
    (h : firstSnipIdx tb = some i) :
    (∃ f t, tb.drop i = f :: t ∧ isSnipFrame f = true) ∧
    (∀ j, j < i → ∃ f, tb.get? j = some f ∧ isSnipFrame f = false) := by
  induction tb generalizing i with
  | nil => simp [firstSnipIdx] at h
  | cons f rest ih =>
    unfold firstSnipIdx at h
    by_cases hf : isSnipFrame f
    · rw [if_pos hf] at h
      cases h
      exact ⟨⟨f, rest, rfl, hf⟩, fun j hj => absurd hj (Nat.not_lt_zero j)⟩
    · rw [if_neg hf] at h
      match hrec : firstSnipIdx rest with
      | none => rw [hrec] at h; cases h
      | some k =>
        rw [hrec] at h
        simp only [Option.map_some'] at h
        cases h
        obtain ⟨hdrop, hbefore⟩ := ih k hrec
        refine ⟨hdrop, ?_⟩
        intro j hj
        match j with
        | 0 => exact ⟨f, rfl, Bool.eq_false_iff.mpr hf⟩
        | Nat.succ j' =>
          exact hbefore j' (Nat.lt_of_succ_lt_succ hj)

theorem addToSet_ne_nil (l : List RestartRec) (r : RestartRec) :
    ∃ x xs, addToSet l r = x :: xs := by
  unfold addToSet
  by_cases hm : r ∈ l
  · rw [if_pos hm]
    cases l with
    | nil => cases hm
    | cons a as => exact ⟨a, as, rfl⟩
  · rw [if_neg hm]
    cases l with
    | nil => exact ⟨r, [], rfl⟩
    | cons a as => exact ⟨a, as ++ [r], rfl⟩

theorem updateAddRestart_nonempty (db : Option SysDoc) (r : RestartRec) :
    ∃ x xs, updateAddRestart db r = some ⟨some (x :: xs)⟩ := by
  cases db with
  | none => exact ⟨r, [], rfl⟩
  | some d =>
    cases d with
    | mk orestart =>
      cases orestart with
      | none => exact ⟨r, [], rfl⟩
      | some l =>
        obtain ⟨x, xs, hx⟩ := addToSet_ne_nil l r
        exact ⟨x, xs, by simp only [updateAddRestart]; rw [hx]⟩

theorem on_start_consumes (x : RestartRec) (xs : List RestartRec) (now : Int) :
    (on_start (some ⟨some (x :: xs)⟩) now).db = none ∧
    ∃ tl, (on_start (some ⟨some (x :: xs)⟩) now).actions =
      Action.deleteDoc :: tl := by
  simp only [on_start]
  generalize dictGet x ("time") = ot
  generalize dictGet x ("status_chat_id") = oc
  generalize dictGet x ("status_message_id") = om
  generalize dictGet x ("restart_reason") = orr
  rcases oc with _ | c
  · exact ⟨rfl, [], rfl⟩
  · rcases om with _ | m
    · exact ⟨rfl, [], rfl⟩
    · rcases ot with _ | (t | st)
      · exact ⟨rfl, [], rfl⟩
      · exact ⟨rfl, [Action.getMessages c m,
          Action.respondStatus
            (if orr = some (Val.s ("update")) then "updated and " else "")
            (now - t)], rfl⟩
      · exact ⟨rfl, [], rfl⟩

theorem cmd_update_restart_inv (env : UpdateEnv) (t : Int) (r : String)
    (h : (cmd_update env).restartCall = some (t, r)) :
    env.diff ≠ [] ∧
    ((∀ c ∈ env.diff, c.a_path ≠ "poetry.lock") ∨
      (env.venv_path ≠ none ∧ env.pip_ret = 0)) ∧
    t = env.update_time ∧ r = "update" := by
  unfold cmd_update at h
  by_cases h1 : env.have_git = false
  · rw [if_pos h1] at h; cases h
  · rw [if_neg h1] at h
    by_cases h2 : env.repo_found = false
    · rw [if_pos h2] at h; cases h
    · rw [if_neg h2] at h
      by_cases h3 : env.remote_name ≠ "" ∧ env.explicit_remote_ok = false
      · rw [if_pos h3] at h; cases h
      · rw [if_neg h3] at h
        by_cases h4 : env.remote_name = "" ∧ env.tracking_remote = none
        · rw [if_pos h4] at h; cases h
        · rw [if_neg h4] at h
          by_cases h5 : env.diff = []
          · rw [if_pos h5] at h; cases h
          · rw [if_neg h5] at h
            by_cases h6 : env.diff.any (fun c => c.a_path == "poetry.lock")
            · rw [if_pos h6] at h
              cases hv : env.venv_path with
              | none => rw [hv] at h; cases h
              | some p =>
                rw [hv] at h
                by_cases h7 : env.pip_ret ≠ 0
                · rw [if_pos h7] at h; cases h
                · rw [if_neg h7] at h
                  injection h with h
                  injection h with ht hr
                  exact ⟨h5, Or.inr ⟨by simp [hv], not_not.mp h7⟩,
                    ht.symm, hr.symm⟩
            · rw [if_neg h6] at h
              injection h with h
              injection h with ht hr
              refine ⟨h5, Or.inl ?_, ht.symm, hr.symm⟩
              intro c hc he
              apply h6
              rw [List.any_eq_true]
              exact ⟨c, hc, by rw [he]; rfl⟩

theorem cmd_update_no_updates (env : UpdateEnv) (hg : env.have_git = true)
    (hr : env.repo_found = true) (hres : remoteResolves env)
    (hd : env.diff = []) :
    cmd_update env = ⟨some noUpdatesMsg, none⟩ := by
  have h3 : ¬(env.remote_name ≠ "" ∧ env.explicit_remote_ok = false) := by
    rintro ⟨hn, hok⟩
    rw [hres.1 hn] at hok
    cases hok
  have h4 : ¬(env.remote_name = "" ∧ env.tracking_remote = none) := by
    rintro ⟨hn, ht⟩
    exact hres.2 hn ht
  unfold cmd_update
  rw [hg, if_neg (by simp), hr, if_neg (by simp), if_neg h3, if_neg h4,
    if_pos hd]

theorem cmd_update_manual (env : UpdateEnv) (hg : env.have_git = true)
    (hr : env.repo_found = true) (hres : remoteResolves env)
    (hlock : ∃ c ∈ env.diff, c.a_path = "poetry.lock")
    (hv : env.venv_path = none) :
    cmd_update env = ⟨some manualUpdateMsg, none⟩ := by
  have h3 : ¬(env.remote_name ≠ "" ∧ env.explicit_remote_ok = false) := by
    rintro ⟨hn, hok⟩
    rw [hres.1 hn] at hok
    cases hok
  have h4 : ¬(env.remote_name = "" ∧ env.tracking_remote = none) := by
    rintro ⟨hn, ht⟩
    exact hres.2 hn ht
  have h5 : env.diff ≠ [] := by
    rintro hnil
    rcases hlock with ⟨c, hc, _⟩
    rw [hnil] at hc
    cases hc
  have h6 : env.diff.any (fun c => c.a_path == "poetry.lock") = true := by
    rw [List.any_eq_true]
    rcases hlock with ⟨c, hc, he⟩
    exact ⟨c, hc, by rw [he]; rfl⟩
  unfold cmd_update
  rw [hg, if_neg (by simp), hr, if_neg (by simp), if_neg h3, if_neg h4,
    if_neg h5, if_pos h6, hv]

/-! ### Claim theorems -/

/-- C1: the claim asserts that the reason read on resume equals the reason
written, so that the resumption report carries the `updated` qualifier
exactly when the record was written with reason `update`. The code violates
this: `cmd_restart` stores the key `reason` (line 255) while `on_start`
reads the key `restart_reason` (line 276), which is never written, so the
read-back reason is always `None` and the qualifier never appears. This
theorem evaluates the embedding at the failing input: a record persisted
with reason `update` (chat 100, message 200, time 5000), consumed at time
6000, yields a report with an empty qualifier. -/
theorem C1_reason_key_mismatch :
    dictGet (mkRestartRec 100 200 5000 ("update")) ("reason") =
      some (Val.s ("update")) ∧
    dictGet (mkRestartRec 100 200 5000 ("update")) ("restart_reason") =
      none ∧
    on_start (cmd_restart none 100 200 (some 5000) 777 ("update")).db 6000 =
      ⟨none, [Action.deleteDoc, Action.getMessages (Val.i 100) (Val.i 200),
              Action.respondStatus ("") 1000], none⟩ := by
  decide

/-- C2 counterexample: the claim asserts the re-exec uses the same
invocation arguments as the original process (argv preserved identically).
The code hardcodes `(sys.executable, "-m", "caligo")` on line 297: when the
original process was launched with an extra argument, that argument is not
in the exec'd argv. -/
theorem C2_counterexample :
    on_stopped true ("python3") (["python3", "-m", "caligo", "--debug"]) =
      some ⟨"python3", ["python3", "-m", "caligo"]⟩ ∧
    (["python3", "-m", "caligo"] : List String) ≠
      ["python3", "-m", "caligo", "--debug"] := by
  decide

/-- C2 amended: at the end of shutdown, if `restart_pending` is true the
process re-execs the interpreter with the fixed argument vector
`(executable, "-m", "caligo")` — independent of the original process argv —
and if the flag is false no re-exec happens and the process terminates
normally. -/
theorem C2_fixed_argv (pending : Bool) (exe : String)
    (argv1 argv2 : List String) :
    on_stopped pending exe argv1 = on_stopped pending exe argv2 ∧
    on_stopped true exe argv1 = some ⟨exe, [exe, "-m", "caligo"]⟩ ∧
    on_stopped false exe argv1 = none :=
  ⟨rfl, rfl, rfl⟩

/-- C3: for any database state, after `cmd_restart` persists a record,
`on_start` on the resulting state deletes the whole document as its first
external action — before any message fetch or edit — leaves no document
behind, and a second consumption attempt is a no-op. -/
theorem C3_delete_before_edit (db0 : Option SysDoc) (chatId msgId : Int)
    (rt : Option Int) (now now1 now2 : Int) (reason : String) :
    (on_start (cmd_restart db0 chatId msgId rt now reason).db now1).db =
      none ∧
    (∃ tl, (on_start (cmd_restart db0 chatId msgId rt now reason).db
      now1).actions = Action.deleteDoc :: tl) ∧
    on_start (on_start (cmd_restart db0 chatId msgId rt now reason).db
      now1).db now2 = ⟨none, [], none⟩ := by
  obtain ⟨x, xs, hdb⟩ := updateAddRestart_nonempty db0
    (mkRestartRec chatId msgId (chooseTime rt now) reason)
  have hdb' : (cmd_restart db0 chatId msgId rt now reason).db =
      some ⟨some (x :: xs)⟩ := hdb
  rw [hdb']
  obtain ⟨h1, h2⟩ := on_start_consumes x xs now1
  refine ⟨h1, h2, ?_⟩
  rw [h1]
  rfl

/-- C4 counterexample: the claim asserts the formatted traceback contains
only frames originating from the snippet. The code keeps the whole
traceback suffix from the first snippet frame on (line 199), so a framework
frame reached from inside the snippet is retained: here the kept trace
contains the framework frame `/app/caligo/util/error.py`, which is not a
snippet frame. -/
theorem C4_counterexample :
    evalExceptHandler ("err")
        [⟨"<string>", 1⟩, ⟨"/app/caligo/util/error.py", 5⟩] =
      EvalOutcome.formatted snipErrHeader
        [⟨"<string>", 1⟩, ⟨"/app/caligo/util/error.py", 5⟩] ∧
    isSnipFrame ⟨"/app/caligo/util/error.py", 5⟩ = false := by
  decide

/-- C4 amended: when the traceback has a first snippet-marked frame (index
`i`), the handler formats exactly the suffix starting there: the retained
trace begins with a snippet frame, every frame discarded (before index `i`)
is a framework frame, but frames after the first snippet frame are kept
whether or not they are snippet frames. -/
theorem C4_suffix_from_first_snip_frame (e : String) (tb : List Frame)
    (i : Nat) (h : firstSnipIdx tb = some i) :
    evalExceptHandler e tb =
      EvalOutcome.formatted snipErrHeader (tb.drop i) ∧
    (∃ f t, tb.drop i = f :: t ∧ isSnipFrame f = true) ∧
    (∀ j, j < i → ∃ f, tb.get? j = some f ∧ isSnipFrame f = false) := by
  refine ⟨?_, firstSnipIdx_spec tb i h⟩
  unfold evalExceptHandler
  rw [h]

/-- C4 witness: a traceback with one framework frame above the snippet
frame is trimmed to the suffix starting at the snippet frame. -/
theorem C4_suffix_witness :
    evalExceptHandler ("err")
        [⟨"/app/caligo/core.py", 1⟩, ⟨"<string>", 2⟩] =
      EvalOutcome.formatted snipErrHeader
        (List.drop 1 [⟨"/app/caligo/core.py", 1⟩, ⟨"<string>", 2⟩]) :=
  (C4_suffix_from_first_snip_frame ("err") _ 1 (by decide)).1

/-- C5 counterexample: the claim asserts the result is written exactly when
the buffer captured no output and the result is non-empty. The code's
condition (line 208) is `not out_buf.getvalue() or result is not None`:
a non-`None` result is appended even when the buffer already has output,
and a `None` result is printed as `None` when the buffer is empty — both
contradicting the claimed condition. -/
theorem C5_counterexample :
    writeResult ("hello\n") (some ("42")) = "hello\n42\n" ∧
    writeResult ("") none = "None\n" := by
  decide

/-- C5 amended: after the snippet finishes, the result is written to the
buffer exactly when the buffer captured no output or the result is not
`None`; equivalently, the buffer is left untouched exactly when it already
contains output and the result is `None`. -/
theorem C5_write_condition (buf : String) (result : Option String) :
    writeResult buf result = buf ↔ (buf ≠ "" ∧ result = none) := by
  unfold writeResult
  by_cases hc : buf = "" ∨ result ≠ none
  · rw [if_pos hc]
    constructor
    · intro heq
      exfalso
      have hlen := congrArg String.length heq
      rw [String.length_append, String.length_append] at hlen
      have h1 : ("\n").length = 1 := rfl
      rw [h1] at hlen
      omega
    · rintro ⟨hb, hr⟩
      rcases hc with h | h
      · exact absurd h hb
      · exact absurd hr h
  · rw [if_neg hc]
    push_neg at hc
    exact ⟨fun _ => hc, fun _ => rfl⟩

/-- C6: exactly one trailing newline is removed from the final buffer
contents before the report is built — a buffer ending in two newlines keeps
one — and the two reference scenarios hold: a snippet that prints `hello`
and returns `None` yields report body `hello`, and a snippet that prints
nothing and returns `42` yields report body `42`. -/
theorem C6_strip_one_newline :
    (∀ s : String, stripOneNewline (s ++ "\n") = s) ∧
    (∀ s : String, stripOneNewline (s ++ "\n" ++ "\n") = s ++ "\n") ∧
    finalBody ("hello\n") none = "hello" ∧
    finalBody ("") (some ("42")) = "42" :=
  ⟨stripOneNewline_append_newline,
   fun s => stripOneNewline_append_newline (s ++ "\n"),
   by decide, by decide⟩

/-- C7: when no frame of the exception's traceback carries the snippet
marker, the `except` handler of `_eval` re-raises the exception unchanged
instead of producing a formatted report. -/
theorem C7_reraise_on_no_snip_frame (e : String) (tb : List Frame)
    (h : ∀ f ∈ tb, isSnipFrame f = false) :
    evalExceptHandler e tb = EvalOutcome.reraised e := by
  unfold evalExceptHandler
  rw [firstSnipIdx_eq_none tb h]

/-- C7 witness: an exception whose traceback holds only framework frames is
re-raised. -/
theorem C7_reraise_witness :
    evalExceptHandler ("boom")
        [⟨"/app/caligo/core.py", 10⟩, ⟨"/app/caligo/modules/system.py", 204⟩]
      = EvalOutcome.reraised ("boom") :=
  C7_reraise_on_no_snip_frame ("boom") _ (by decide)

/-- C8: `cmd_update` delegates to `cmd_restart` only when the post-pull
diff is non-empty and either no change touches `poetry.lock` or a
virtualenv was detected and the pip reinstall exited with code zero, and
the delegation always carries the pre-pull timestamp and reason `update`;
an empty diff yields the `No updates found.` reply with no restart call,
and a `poetry.lock` change without a virtualenv yields the manual-update
instruction with no restart call. -/
theorem C8_restart_gating :
    (∀ env : UpdateEnv, ∀ t : Int, ∀ r : String,
      (cmd_update env).restartCall = some (t, r) →
      env.diff ≠ [] ∧
      ((∀ c ∈ env.diff, c.a_path ≠ "poetry.lock") ∨
        (env.venv_path ≠ none ∧ env.pip_ret = 0)) ∧
      t = env.update_time ∧ r = "update") ∧
    (∀ env : UpdateEnv, env.have_git = true → env.repo_found = true →
      remoteResolves env → env.diff = [] →
      cmd_update env = ⟨some noUpdatesMsg, none⟩) ∧
    (∀ env : UpdateEnv, env.have_git = true → env.repo_found = true →
      remoteResolves env → (∃ c ∈ env.diff, c.a_path = "poetry.lock") →
      env.venv_path = none →
      cmd_update env = ⟨some manualUpdateMsg, none⟩) :=
  ⟨cmd_update_restart_inv, cmd_update_no_updates, cmd_update_manual⟩

/-- C8 witness: with git and the repository available, a tracking remote,
and an empty diff, `cmd_update` replies `No updates found.` and makes no
restart call. -/
theorem C8_no_updates_witness :
    cmd_update ⟨true, true, "", true, some ("origin"), "master", 999, [],
      none, "", 0⟩ = ⟨some noUpdatesMsg, none⟩ :=
  C8_restart_gating.2.1 _ rfl rfl
    ⟨fun hn => absurd rfl hn, fun _ => by decide⟩ rfl

/-- C9: when a document exists for the bot uid whose `restart` field is
absent (`data.get("restart")` is `None`, so the `[0]` subscript raises
`TypeError`) or an empty list (`IndexError`), `on_start` raises before the
`delete_one`, performs no external action, and leaves the document in
place, so the next boot fails identically. -/
theorem C9_malformed_doc_replays (now now2 : Int) :
    on_start (some ⟨none⟩) now =
      ⟨some ⟨none⟩, [], some PyError.typeError⟩ ∧
    on_start (some ⟨some []⟩) now =
      ⟨some ⟨some []⟩, [], some PyError.indexError⟩ ∧
    on_start (on_start (some ⟨none⟩) now).db now2 =
      ⟨some ⟨none⟩, [], some PyError.typeError⟩ ∧
    on_start (on_start (some ⟨some []⟩) now).db now2 =
      ⟨some ⟨some []⟩, [], some PyError.indexError⟩ :=
  ⟨rfl, rfl, rfl, rfl⟩

/-- C10: `silent` always restores `sys.stdout` to the value it held on
entry — also when the body raises, since the assignment sits in a `finally`
block — and the devnull handle it opened is closed (no longer open) when
the `with` block exits; the body's exception flag passes through
unchanged. Hypotheses: the devnull handle is fresh and the body itself does
not open or close files. -/
theorem C10_silent_restores (body : SilentState → SilentState × Bool)
    (s0 : SilentState) (h : Nat) (hfresh : h ∉ s0.open_handles)
    (hbody : ∀ s, ((body s).1).open_handles = s.open_handles) :
    ((silent body s0 h).1).sys_stdout = s0.sys_stdout ∧
    h ∉ ((silent body s0 h).1).open_handles ∧
    (silent body s0 h).2 = (body ⟨h, h :: s0.open_handles⟩).2 := by
  refine ⟨rfl, ?_, rfl⟩
  show h ∉ (((body ⟨h, h :: s0.open_handles⟩).1).open_handles).erase h
  rw [hbody, List.erase_cons_head]
  exact hfresh

/-- C10 witness: a body that rebinds `sys.stdout` and raises still leaves
`sys.stdout` restored to its entry value, the devnull handle closed, and
the exception propagating. -/
theorem C10_silent_witness :
    ((silent (fun s => (⟨99, s.open_handles⟩, true)) ⟨0, [7]⟩ 5).1).sys_stdout
      = 0 ∧
    5 ∉ ((silent (fun s => (⟨99, s.open_handles⟩, true)) ⟨0, [7]⟩
      5).1).open_handles ∧
    (silent (fun s => (⟨99, s.open_handles⟩, true)) ⟨0, [7]⟩ 5).2 = true :=
  C10_silent_restores (fun s => (⟨99, s.open_handles⟩, true)) ⟨0, [7]⟩ 5
    (by decide) (fun s => rfl)

end Caligo
